import Mathlib

/-!
Verification of the multibagger stock screener's data-acquisition-and-scoring
pipeline against its natural-language specification.

The embedding translates the TypeScript sources into Lean:
- JavaScript numbers are modelled as rationals (ℚ) wherever the code only uses
  field arithmetic and comparisons, and as reals (ℝ) where `Math.pow` with a
  fractional exponent appears (the CAGR computations).
- `number | null` / optional fields become `Option ℚ`.
- JS truthiness guards (`!x`, `x || y`) are encoded explicitly: for a nullable
  number, falsy means "absent or equal to 0".
- The presentational string interpolations (`toFixed` renderings inside the
  `value` / `rationale` fields) are replaced by fixed descriptive constants;
  the spec states these strings are not semantically load-bearing.  The "N/A"
  / "Est." markers that identify the data-not-available branches are kept.
-/

namespace Multibagger

/-! ## Scoring engine (src/backend/src/services/scoring.service.ts) -/

/-- `ScoringInput` from scoring.service.ts.  `price`, `marketCap`, `high52w`,
`low52w` are required numbers; the rest are optional (`Option`). -/
structure ScoringInput where
  price : ℚ
  marketCap : ℚ
  high52w : ℚ
  low52w : ℚ
  freeCashFlow : Option ℚ
  bookValue : Option ℚ
  ebitdaGrowth : Option ℚ
  assetGrowth : Option ℚ
  ebitdaMargin : Option ℚ
  roa : Option ℚ
  price6MonthsAgo : Option ℚ
  paysDividend : Option Bool
  dividendYield : Option ℚ
deriving DecidableEq

/-- `FactorScore` from scoring.service.ts: score is a float (2.5 occurs),
maxScore a fixed integer constant, value/rationale presentational strings. -/
structure FactorScore where
  score : ℚ
  maxScore : ℕ
  value : String
  rationale : String
deriving DecidableEq

/-- Factor 1: FCF Yield (max 25).  Source guard:
`!input.freeCashFlow || input.marketCap <= 0` (JS truthiness: absent or 0). -/
def scoreFcfYield (input : ScoringInput) : FactorScore :=
  match input.freeCashFlow with
  | none => ⟨0, 25, "N/A", "Free cash flow data not available"⟩
  | some fcf =>
    if fcf = 0 ∨ input.marketCap ≤ 0 then
      ⟨0, 25, "N/A", "Free cash flow data not available"⟩
    else
      let fcfYield := fcf / input.marketCap * 100
      if fcfYield > 12 then ⟨25, 25, "pct", "Exceptional FCF yield"⟩
      else if fcfYield > 8 then ⟨20, 25, "pct", "Strong FCF yield"⟩
      else if fcfYield > 5 then ⟨15, 25, "pct", "Good FCF yield"⟩
      else if fcfYield > 0 then ⟨8, 25, "pct", "Positive FCF yield"⟩
      else ⟨0, 25, "pct", "Negative FCF yield"⟩

/-- Factor 2: Size / market cap (max 15). -/
def scoreSize (input : ScoringInput) : FactorScore :=
  let marketCapM := input.marketCap / 1000000
  if marketCapM < 350 then ⟨15, 15, "cap", "Micro-cap"⟩
  else if marketCapM < 500 then ⟨12, 15, "cap", "Small micro-cap"⟩
  else if marketCapM < 1000 then ⟨8, 15, "cap", "Small-cap"⟩
  else if marketCapM < 2000 then ⟨4, 15, "cap", "Mid-small cap"⟩
  else ⟨0, 15, "cap", "Large cap"⟩

/-- Factor 3: Book-to-Market (max 15).  Source guard:
`!input.bookValue || input.marketCap <= 0`. -/
def scoreBookToMarket (input : ScoringInput) : FactorScore :=
  match input.bookValue with
  | none => ⟨0, 15, "N/A", "Book value data not available"⟩
  | some bv =>
    if bv = 0 ∨ input.marketCap ≤ 0 then
      ⟨0, 15, "N/A", "Book value data not available"⟩
    else
      let btm := bv / input.marketCap
      if btm > 1 then ⟨15, 15, "btm", "Trading below book value"⟩
      else if btm > 6/10 then ⟨12, 15, "btm", "Good value"⟩
      else if btm > 4/10 then ⟨8, 15, "btm", "Moderate value"⟩
      else if btm > 0 then ⟨4, 15, "btm", "Growth valuation"⟩
      else ⟨0, 15, "btm", "Negative book value"⟩

/-- Factor 4: Investment Pattern (max 15).  Source guard is a strict
`=== undefined` test on both growth inputs (0 passes the guard). -/
def scoreInvestmentPattern (input : ScoringInput) : FactorScore :=
  match input.ebitdaGrowth, input.assetGrowth with
  | some eg, some ag =>
    if eg > ag ∧ eg > 0 then ⟨15, 15, "pat", "Sustainable investment pattern"⟩
    else if eg > 0 ∧ ag > 0 then ⟨7, 15, "pat", "Growing but asset-intensive"⟩
    else if eg > 0 then ⟨10, 15, "pat", "Growing EBITDA with stable or shrinking assets"⟩
    else ⟨0, 15, "pat", "Declining EBITDA"⟩
  | _, _ => ⟨0, 15, "N/A", "Growth metrics not available"⟩

/-- Factor 5: EBITDA Margin (max 10).  `=== undefined` guard. -/
def scoreEbitdaMargin (input : ScoringInput) : FactorScore :=
  match input.ebitdaMargin with
  | none => ⟨0, 10, "N/A", "EBITDA margin data not available"⟩
  | some margin =>
    if margin > 20 then ⟨10, 10, "pct", "Excellent profitability"⟩
    else if margin > 15 then ⟨8, 10, "pct", "Strong profitability"⟩
    else if margin > 10 then ⟨6, 10, "pct", "Decent profitability"⟩
    else if margin > 0 then ⟨3, 10, "pct", "Low profitability"⟩
    else ⟨0, 10, "pct", "Negative EBITDA margin"⟩

/-- Factor 6: ROA (max 10).  `=== undefined` guard. -/
def scoreRoa (input : ScoringInput) : FactorScore :=
  match input.roa with
  | none => ⟨0, 10, "N/A", "ROA data not available"⟩
  | some r =>
    if r > 12 then ⟨10, 10, "pct", "Exceptional asset efficiency"⟩
    else if r > 8 then ⟨8, 10, "pct", "Strong asset efficiency"⟩
    else if r > 5 then ⟨6, 10, "pct", "Good asset efficiency"⟩
    else if r > 0 then ⟨3, 10, "pct", "Low asset efficiency"⟩
    else ⟨0, 10, "pct", "Negative ROA"⟩

/-- Factor 7: Price Range (max 10, contrarian).  Source guard:
`!input.high52w || !input.low52w || input.high52w === input.low52w`
(truthiness on required numbers is a 0 test). -/
def scorePriceRange (input : ScoringInput) : FactorScore :=
  if input.high52w = 0 ∨ input.low52w = 0 ∨ input.high52w = input.low52w then
    ⟨0, 10, "N/A", "52-week price range data not available"⟩
  else
    let range := input.high52w - input.low52w
    let positionPct := (input.price - input.low52w) / range * 100
    if positionPct ≤ 20 then ⟨10, 10, "pct", "Excellent entry point"⟩
    else if positionPct ≤ 35 then ⟨8, 10, "pct", "Good entry point"⟩
    else if positionPct ≤ 50 then ⟨5, 10, "pct", "Neutral entry"⟩
    else if positionPct ≤ 75 then ⟨2, 10, "pct", "Elevated price"⟩
    else ⟨0, 10, "pct", "Near 52-week highs"⟩

/-- Factor 8: Momentum (max 5, contrarian).  Source guard:
`!input.price6MonthsAgo || input.price6MonthsAgo <= 0` returns the neutral
estimate 2.5 (not 0). -/
def scoreMomentum (input : ScoringInput) : FactorScore :=
  match input.price6MonthsAgo with
  | none => ⟨5/2, 5, "Est.", "6-month price data not available - using neutral estimate"⟩
  | some p6 =>
    if p6 = 0 ∨ p6 ≤ 0 then
      ⟨5/2, 5, "Est.", "6-month price data not available - using neutral estimate"⟩
    else
      let momentum := (input.price - p6) / p6 * 100
      if momentum < -15 then ⟨5, 5, "pct", "Strong contrarian signal"⟩
      else if momentum < -5 then ⟨4, 5, "pct", "Good contrarian setup"⟩
      else if momentum < 0 then ⟨3, 5, "pct", "Mild weakness"⟩
      else if momentum < 15 then ⟨1, 5, "pct", "Positive momentum"⟩
      else ⟨0, 5, "pct", "Strong positive momentum"⟩

/-- Factor 9: Dividend (max 5).  Source:
`input.paysDividend || (input.dividendYield && input.dividendYield > 0)`. -/
def scoreDividend (input : ScoringInput) : FactorScore :=
  let pays := input.paysDividend.getD false ||
    (match input.dividendYield with
     | some y => decide (y > 0)
     | none => false)
  if pays then ⟨5, 5, "Yes", "Pays dividend"⟩
  else ⟨0, 5, "No", "No dividend"⟩

/-- `YartsevaScores` from scoring.service.ts. -/
structure YartsevaScores where
  fcfYield : FactorScore
  size : FactorScore
  bookToMarket : FactorScore
  investmentPattern : FactorScore
  ebitdaMargin : FactorScore
  roa : FactorScore
  priceRange : FactorScore
  momentum : FactorScore
  dividend : FactorScore
  total : ℚ
  maxTotal : ℕ
  percentage : ℚ
  classification : String
deriving DecidableEq

/-- `ScoringService.calculateScores`: the nine factors, total (sum),
maxTotal = 110, percentage = total / maxTotal * 100, classification bands
at 70 / 55 / 40 percent. -/
def calculateScores (input : ScoringInput) : YartsevaScores :=
  let fcfYield := scoreFcfYield input
  let size := scoreSize input
  let bookToMarket := scoreBookToMarket input
  let investmentPattern := scoreInvestmentPattern input
  let ebitdaMargin := scoreEbitdaMargin input
  let roa := scoreRoa input
  let priceRange := scorePriceRange input
  let momentum := scoreMomentum input
  let dividend := scoreDividend input
  let total := fcfYield.score + size.score + bookToMarket.score +
    investmentPattern.score + ebitdaMargin.score + roa.score +
    priceRange.score + momentum.score + dividend.score
  let percentage := total / 110 * 100
  let classification :=
    if percentage ≥ 70 then "STRONG BUY"
    else if percentage ≥ 55 then "MODERATE BUY"
    else if percentage ≥ 40 then "WEAK BUY"
    else "AVOID"
  ⟨fcfYield, size, bookToMarket, investmentPattern, ebitdaMargin, roa,
    priceRange, momentum, dividend, total, 110, percentage, classification⟩

/-! ### Per-factor range lemmas (shared helpers) -/

theorem scoreFcfYield_bounds (i : ScoringInput) :
    0 ≤ (scoreFcfYield i).score ∧ (scoreFcfYield i).score ≤ 25 := by
  cases hfc : i.freeCashFlow with
  | none => simp [scoreFcfYield, hfc]
  | some fcf =>
    simp only [scoreFcfYield, hfc]
    split_ifs <;> norm_num

theorem scoreSize_bounds (i : ScoringInput) :
    0 ≤ (scoreSize i).score ∧ (scoreSize i).score ≤ 15 := by
  simp only [scoreSize]
  split_ifs <;> norm_num

theorem scoreBookToMarket_bounds (i : ScoringInput) :
    0 ≤ (scoreBookToMarket i).score ∧ (scoreBookToMarket i).score ≤ 15 := by
  cases hbv : i.bookValue with
  | none => simp [scoreBookToMarket, hbv]
  | some bv =>
    simp only [scoreBookToMarket, hbv]
    split_ifs <;> norm_num

theorem scoreInvestmentPattern_bounds (i : ScoringInput) :
    0 ≤ (scoreInvestmentPattern i).score ∧ (scoreInvestmentPattern i).score ≤ 15 := by
  cases heg : i.ebitdaGrowth with
  | none => simp [scoreInvestmentPattern, heg]
  | some eg =>
    cases hag : i.assetGrowth with
    | none => simp [scoreInvestmentPattern, heg, hag]
    | some ag =>
      simp only [scoreInvestmentPattern, heg, hag]
      split_ifs <;> norm_num

theorem scoreEbitdaMargin_bounds (i : ScoringInput) :
    0 ≤ (scoreEbitdaMargin i).score ∧ (scoreEbitdaMargin i).score ≤ 10 := by
  cases hm : i.ebitdaMargin with
  | none => simp [scoreEbitdaMargin, hm]
  | some m =>
    simp only [scoreEbitdaMargin, hm]
    split_ifs <;> norm_num

theorem scoreRoa_bounds (i : ScoringInput) :
    0 ≤ (scoreRoa i).score ∧ (scoreRoa i).score ≤ 10 := by
  cases hr : i.roa with
  | none => simp [scoreRoa, hr]
  | some r =>
    simp only [scoreRoa, hr]
    split_ifs <;> norm_num

theorem scorePriceRange_bounds (i : ScoringInput) :
    0 ≤ (scorePriceRange i).score ∧ (scorePriceRange i).score ≤ 10 := by
  simp only [scorePriceRange]
  split_ifs <;> norm_num

theorem scoreMomentum_bounds (i : ScoringInput) :
    0 ≤ (scoreMomentum i).score ∧ (scoreMomentum i).score ≤ 5 := by
  cases hp : i.price6MonthsAgo with
  | none => simp [scoreMomentum, hp]; norm_num
  | some p6 =>
    simp only [scoreMomentum, hp]
    split_ifs <;> norm_num

theorem scoreDividend_bounds (i : ScoringInput) :
    0 ≤ (scoreDividend i).score ∧ (scoreDividend i).score ≤ 5 := by
  simp only [scoreDividend]
  split_ifs <;> norm_num

/-! ### Claim theorems C1, C2 -/

/-- Concrete record of the spec's first scenario. -/
def c1Input : ScoringInput :=
  { price := 25
    marketCap := 280000000
    high52w := 45
    low52w := 20
    freeCashFlow := some 42000000
    bookValue := some 350000000
    ebitdaGrowth := some 25
    assetGrowth := some 12
    ebitdaMargin := some 22
    roa := some 14
    price6MonthsAgo := some 32
    paysDividend := some true
    dividendYield := none }

/-- C1: for the record with price=25, marketCap=280,000,000, high52w=45,
low52w=20, freeCashFlow=42,000,000, bookValue=350,000,000, ebitdaGrowth=25,
assetGrowth=12, ebitdaMargin=22, roa=14, price6MonthsAgo=32,
paysDividend=true, the nine factor scores are 25, 15, 15, 15, 10, 10, 10, 5, 5,
the total is 110 of 110, the percentage is 100 and the classification is
"STRONG BUY". -/
theorem c1_strong_buy_scenario :
    (calculateScores c1Input).fcfYield.score = 25 ∧
    (calculateScores c1Input).size.score = 15 ∧
    (calculateScores c1Input).bookToMarket.score = 15 ∧
    (calculateScores c1Input).investmentPattern.score = 15 ∧
    (calculateScores c1Input).ebitdaMargin.score = 10 ∧
    (calculateScores c1Input).roa.score = 10 ∧
    (calculateScores c1Input).priceRange.score = 10 ∧
    (calculateScores c1Input).momentum.score = 5 ∧
    (calculateScores c1Input).dividend.score = 5 ∧
    (calculateScores c1Input).total = 110 ∧
    (calculateScores c1Input).maxTotal = 110 ∧
    (calculateScores c1Input).percentage = 100 ∧
    (calculateScores c1Input).classification = "STRONG BUY" := by
  norm_num [calculateScores, c1Input, scoreFcfYield, scoreSize, scoreBookToMarket,
    scoreInvestmentPattern, scoreEbitdaMargin, scoreRoa, scorePriceRange,
    scoreMomentum, scoreDividend]

/-- C2: for every record, the total equals the sum of the nine factor scores,
the total lies in [0, 110] (each factor score lies between 0 and its fixed
maxScore), and the percentage equals total / 110 * 100. -/
theorem c2_total_sum_bounds (i : ScoringInput) :
    (calculateScores i).total =
      (calculateScores i).fcfYield.score + (calculateScores i).size.score +
      (calculateScores i).bookToMarket.score + (calculateScores i).investmentPattern.score +
      (calculateScores i).ebitdaMargin.score + (calculateScores i).roa.score +
      (calculateScores i).priceRange.score + (calculateScores i).momentum.score +
      (calculateScores i).dividend.score ∧
    0 ≤ (calculateScores i).total ∧ (calculateScores i).total ≤ 110 ∧
    (calculateScores i).percentage = (calculateScores i).total / 110 * 100 ∧
    0 ≤ (calculateScores i).fcfYield.score ∧
      (calculateScores i).fcfYield.score ≤ ((calculateScores i).fcfYield.maxScore : ℚ) ∧
      (calculateScores i).fcfYield.maxScore = 25 ∧
    0 ≤ (calculateScores i).size.score ∧
      (calculateScores i).size.score ≤ ((calculateScores i).size.maxScore : ℚ) ∧
      (calculateScores i).size.maxScore = 15 ∧
    0 ≤ (calculateScores i).bookToMarket.score ∧
      (calculateScores i).bookToMarket.score ≤ ((calculateScores i).bookToMarket.maxScore : ℚ) ∧
      (calculateScores i).bookToMarket.maxScore = 15 ∧
    0 ≤ (calculateScores i).investmentPattern.score ∧
      (calculateScores i).investmentPattern.score ≤ ((calculateScores i).investmentPattern.maxScore : ℚ) ∧
      (calculateScores i).investmentPattern.maxScore = 15 ∧
    0 ≤ (calculateScores i).ebitdaMargin.score ∧
      (calculateScores i).ebitdaMargin.score ≤ ((calculateScores i).ebitdaMargin.maxScore : ℚ) ∧
      (calculateScores i).ebitdaMargin.maxScore = 10 ∧
    0 ≤ (calculateScores i).roa.score ∧
      (calculateScores i).roa.score ≤ ((calculateScores i).roa.maxScore : ℚ) ∧
      (calculateScores i).roa.maxScore = 10 ∧
    0 ≤ (calculateScores i).priceRange.score ∧
      (calculateScores i).priceRange.score ≤ ((calculateScores i).priceRange.maxScore : ℚ) ∧
      (calculateScores i).priceRange.maxScore = 10 ∧
    0 ≤ (calculateScores i).momentum.score ∧
      (calculateScores i).momentum.score ≤ ((calculateScores i).momentum.maxScore : ℚ) ∧
      (calculateScores i).momentum.maxScore = 5 ∧
    0 ≤ (calculateScores i).dividend.score ∧
      (calculateScores i).dividend.score ≤ ((calculateScores i).dividend.maxScore : ℚ) ∧
      (calculateScores i).dividend.maxScore = 5 := by
  have e1 : (calculateScores i).fcfYield = scoreFcfYield i := rfl
  have e2 : (calculateScores i).size = scoreSize i := rfl
  have e3 : (calculateScores i).bookToMarket = scoreBookToMarket i := rfl
  have e4 : (calculateScores i).investmentPattern = scoreInvestmentPattern i := rfl
  have e5 : (calculateScores i).ebitdaMargin = scoreEbitdaMargin i := rfl
  have e6 : (calculateScores i).roa = scoreRoa i := rfl
  have e7 : (calculateScores i).priceRange = scorePriceRange i := rfl
  have e8 : (calculateScores i).momentum = scoreMomentum i := rfl
  have e9 : (calculateScores i).dividend = scoreDividend i := rfl
  have etot : (calculateScores i).total =
      (scoreFcfYield i).score + (scoreSize i).score + (scoreBookToMarket i).score +
      (scoreInvestmentPattern i).score + (scoreEbitdaMargin i).score + (scoreRoa i).score +
      (scorePriceRange i).score + (scoreMomentum i).score + (scoreDividend i).score := rfl
  have h1 := scoreFcfYield_bounds i
  have h2 := scoreSize_bounds i
  have h3 := scoreBookToMarket_bounds i
  have h4 := scoreInvestmentPattern_bounds i
  have h5 := scoreEbitdaMargin_bounds i
  have h6 := scoreRoa_bounds i
  have h7 := scorePriceRange_bounds i
  have h8 := scoreMomentum_bounds i
  have h9 := scoreDividend_bounds i
  have m1 : (scoreFcfYield i).maxScore = 25 := by
    cases hfc : i.freeCashFlow <;> simp only [scoreFcfYield, hfc] <;> split_ifs <;> rfl
  have m2 : (scoreSize i).maxScore = 15 := by
    simp only [scoreSize]; split_ifs <;> rfl
  have m3 : (scoreBookToMarket i).maxScore = 15 := by
    cases hbv : i.bookValue <;> simp only [scoreBookToMarket, hbv] <;> split_ifs <;> rfl
  have m4 : (scoreInvestmentPattern i).maxScore = 15 := by
    cases heg : i.ebitdaGrowth with
    | none => simp [scoreInvestmentPattern, heg]
    | some eg =>
      cases hag : i.assetGrowth with
      | none => simp [scoreInvestmentPattern, heg, hag]
      | some ag => simp only [scoreInvestmentPattern, heg, hag]; split_ifs <;> rfl
  have m5 : (scoreEbitdaMargin i).maxScore = 10 := by
    cases hm : i.ebitdaMargin <;> simp only [scoreEbitdaMargin, hm] <;> split_ifs <;> rfl
  have m6 : (scoreRoa i).maxScore = 10 := by
    cases hr : i.roa <;> simp only [scoreRoa, hr] <;> split_ifs <;> rfl
  have m7 : (scorePriceRange i).maxScore = 10 := by
    simp only [scorePriceRange]; split_ifs <;> rfl
  have m8 : (scoreMomentum i).maxScore = 5 := by
    cases hp : i.price6MonthsAgo <;> simp only [scoreMomentum, hp] <;> split_ifs <;> rfl
  have m9 : (scoreDividend i).maxScore = 5 := by
    simp only [scoreDividend]; split_ifs <;> rfl
  exact ⟨rfl,
    by rw [etot]; linarith [h1.1, h2.1, h3.1, h4.1, h5.1, h6.1, h7.1, h8.1, h9.1],
    by rw [etot]; linarith [h1.2, h2.2, h3.2, h4.2, h5.2, h6.2, h7.2, h8.2, h9.2],
    rfl,
    h1.1, by rw [e1, m1]; exact_mod_cast h1.2, m1,
    h2.1, by rw [e2, m2]; exact_mod_cast h2.2, m2,
    h3.1, by rw [e3, m3]; exact_mod_cast h3.2, m3,
    h4.1, by rw [e4, m4]; exact_mod_cast h4.2, m4,
    h5.1, by rw [e5, m5]; exact_mod_cast h5.2, m5,
    h6.1, by rw [e6, m6]; exact_mod_cast h6.2, m6,
    h7.1, by rw [e7, m7]; exact_mod_cast h7.2, m7,
    h8.1, by rw [e8, m8]; exact_mod_cast h8.2, m8,
    h9.1, by rw [e9, m9]; exact_mod_cast h9.2, m9⟩

/-! ## Record cache (src/backend/src/services/cache.service.ts) -/

/-- `CachedStockData` from cache.service.ts. -/
structure CachedStockData where
  ticker : String
  companyName : String
  sector : String
  industry : String
  marketCap : ℚ
  price : ℚ
  high52w : ℚ
  low52w : ℚ
  fcf : Option ℚ
  bookValue : Option ℚ
  totalAssets : Option ℚ
  ebitda : Option ℚ
  ebitdaMargin : Option ℚ
  roa : Option ℚ
  assetGrowth : Option ℚ
  ebitdaGrowth : Option ℚ
  dividendYield : Option ℚ
  paysDividend : Bool
  peRatio : Option ℚ
  pbRatio : Option ℚ
  price6MonthsAgo : Option ℚ
  dataFetchedAt : ℤ
deriving DecidableEq

/-- `CACHE_DURATION_MS = 24 * 60 * 60 * 1000` (24 hours), cache.service.ts. -/
def CACHE_DURATION_MS : ℤ := 24 * 60 * 60 * 1000

/-- `CacheService.isFresh`: `now - fetchedAt < CACHE_DURATION_MS`.  The source
reads `Date.now()` internally; the embedding passes the clock explicitly. -/
def isFresh (now fetchedAt : ℤ) : Bool := now - fetchedAt < CACHE_DURATION_MS

/-- `CacheService.getCachedStock`: the backing store is modelled as a map from
ticker to row; a present but stale row is discarded (treated as a miss). -/
def getCachedStock (store : String → Option CachedStockData) (now : ℤ)
    (ticker : String) : Option CachedStockData :=
  match store ticker with
  | none => none
  | some row => if isFresh now row.dataFetchedAt then some row else none

theorem getCachedStock_hit_iff (store : String → Option CachedStockData)
    (now : ℤ) (t : String) (row : CachedStockData) (hrow : store t = some row) :
    getCachedStock store now t = some row ↔
      now - row.dataFetchedAt < CACHE_DURATION_MS := by
  simp only [getCachedStock, hrow]
  split_ifs with h
  · simp only [isFresh, decide_eq_true_eq] at h
    simp [h]
  · simp only [isFresh, decide_eq_true_eq] at h
    simp [h]

theorem getCachedStock_stale (store : String → Option CachedStockData)
    (now : ℤ) (t : String) (row : CachedStockData) (hrow : store t = some row)
    (h : ¬ (now - row.dataFetchedAt < CACHE_DURATION_MS)) :
    getCachedStock store now t = none := by
  simp [getCachedStock, hrow, isFresh, h]

/-- C4: a cache read hits iff now - fetchTimestamp < 24h; in particular a read
at T+23h59m returns the record, a read at T+24h00m01s misses, and so does every
later read. -/
theorem c4_cache_freshness (store : String → Option CachedStockData) (now : ℤ)
    (t : String) (row : CachedStockData) (hrow : store t = some row) :
    (getCachedStock store now t = some row ↔
      now - row.dataFetchedAt < 24 * 60 * 60 * 1000) ∧
    getCachedStock store (row.dataFetchedAt + (23 * 60 + 59) * 60 * 1000) t = some row ∧
    getCachedStock store (row.dataFetchedAt + (24 * 60 * 60 + 1) * 1000) t = none ∧
    (∀ d : ℤ, 24 * 60 * 60 * 1000 ≤ d →
      getCachedStock store (row.dataFetchedAt + d) t = none) := by
  refine ⟨getCachedStock_hit_iff store now t row hrow, ?_, ?_, ?_⟩
  · exact (getCachedStock_hit_iff store _ t row hrow).mpr
      (by unfold CACHE_DURATION_MS; omega)
  · exact getCachedStock_stale store _ t row hrow (by unfold CACHE_DURATION_MS; omega)
  · intro d hd
    exact getCachedStock_stale store _ t row hrow (by unfold CACHE_DURATION_MS at *; omega)

/-- A concrete cached row used by witnesses. -/
def c4Row : CachedStockData :=
  { ticker := "TEST"
    companyName := "Test Co"
    sector := "Tech"
    industry := "Software"
    marketCap := 100000000
    price := 10
    high52w := 20
    low52w := 5
    fcf := none
    bookValue := none
    totalAssets := none
    ebitda := none
    ebitdaMargin := none
    roa := none
    assetGrowth := none
    ebitdaGrowth := none
    dividendYield := none
    paysDividend := false
    peRatio := none
    pbRatio := none
    price6MonthsAgo := none
    dataFetchedAt := 0 }

theorem c4_cache_freshness_witness :
    (getCachedStock (fun _ => some c4Row) 0 "TEST" = some c4Row ↔
      (0 : ℤ) - c4Row.dataFetchedAt < 24 * 60 * 60 * 1000) ∧
    getCachedStock (fun _ => some c4Row)
      (c4Row.dataFetchedAt + (23 * 60 + 59) * 60 * 1000) "TEST" = some c4Row ∧
    getCachedStock (fun _ => some c4Row)
      (c4Row.dataFetchedAt + (24 * 60 * 60 + 1) * 1000) "TEST" = none ∧
    (∀ d : ℤ, 24 * 60 * 60 * 1000 ≤ d →
      getCachedStock (fun _ => some c4Row) (c4Row.dataFetchedAt + d) "TEST" = none) :=
  c4_cache_freshness (fun _ => some c4Row) 0 "TEST" c4Row rfl

/-! ## C6: null-input factor behaviour -/

/-- A record whose optional inputs are all absent. -/
def c6Input : ScoringInput :=
  { price := 10
    marketCap := 100000000
    high52w := 20
    low52w := 5
    freeCashFlow := none
    bookValue := none
    ebitdaGrowth := none
    assetGrowth := none
    ebitdaMargin := none
    roa := none
    price6MonthsAgo := none
    paysDividend := none
    dividendYield := none }

/-- C6 counterexample: the claim says each of the nine factors returns 0 when
its required inputs are null, but Momentum returns the neutral 2.5 when
price6MonthsAgo is null. -/
theorem c6_counterexample_momentum_not_zero :
    c6Input.price6MonthsAgo = none ∧
    (scoreMomentum c6Input).score = 5 / 2 ∧
    ¬ (scoreMomentum c6Input).score = 0 := by
  refine ⟨rfl, ?_, ?_⟩ <;> norm_num [scoreMomentum, c6Input]

/-- C6 (amended): every factor except Momentum returns 0 when its required
optional inputs are absent (never an error); Momentum returns the neutral 2.5;
in particular with freeCashFlow null, Factor 1 scores exactly 0 with
maxScore 25. -/
theorem c6_amended_null_inputs (i : ScoringInput) :
    (i.freeCashFlow = none →
      (scoreFcfYield i).score = 0 ∧ (scoreFcfYield i).maxScore = 25) ∧
    (i.bookValue = none → (scoreBookToMarket i).score = 0) ∧
    (i.ebitdaGrowth = none ∨ i.assetGrowth = none →
      (scoreInvestmentPattern i).score = 0) ∧
    (i.ebitdaMargin = none → (scoreEbitdaMargin i).score = 0) ∧
    (i.roa = none → (scoreRoa i).score = 0) ∧
    (i.paysDividend = none ∧ i.dividendYield = none → (scoreDividend i).score = 0) ∧
    (i.price6MonthsAgo = none → (scoreMomentum i).score = 5 / 2) := by
  refine ⟨?_, ?_, ?_, ?_, ?_, ?_, ?_⟩
  · intro h; constructor <;> simp [scoreFcfYield, h]
  · intro h; simp [scoreBookToMarket, h]
  · rintro (h | h)
    · cases hag : i.assetGrowth <;> simp [scoreInvestmentPattern, h, hag]
    · cases heg : i.ebitdaGrowth <;> simp [scoreInvestmentPattern, h, heg]
  · intro h; simp [scoreEbitdaMargin, h]
  · intro h; simp [scoreRoa, h]
  · rintro ⟨h1, h2⟩; simp [scoreDividend, h1, h2]
  · intro h; simp [scoreMomentum, h]

theorem c6_amended_null_inputs_witness :
    (scoreFcfYield c6Input).score = 0 ∧ (scoreFcfYield c6Input).maxScore = 25 ∧
    (scoreBookToMarket c6Input).score = 0 ∧
    (scoreInvestmentPattern c6Input).score = 0 ∧
    (scoreEbitdaMargin c6Input).score = 0 ∧
    (scoreRoa c6Input).score = 0 ∧
    (scoreDividend c6Input).score = 0 ∧
    (scoreMomentum c6Input).score = 5 / 2 := by
  obtain ⟨a, b, c, d, e, f, g⟩ := c6_amended_null_inputs c6Input
  exact ⟨(a rfl).1, (a rfl).2, b rfl, c (Or.inl rfl), d rfl, e rfl,
    f ⟨rfl, rfl⟩, g rfl⟩

/-! ## C9: division guards -/

/-- C9: the scoring function is total: Factors 1 and 3 return 0 when
marketCap ≤ 0, Factor 7 returns 0 when high52w = low52w, and Factor 8 returns
the neutral 2.5 when price6MonthsAgo is null, zero or negative. -/
theorem c9_division_guards (i : ScoringInput) :
    (i.marketCap ≤ 0 →
      (scoreFcfYield i).score = 0 ∧ (scoreBookToMarket i).score = 0) ∧
    (i.high52w = i.low52w → (scorePriceRange i).score = 0) ∧
    (i.price6MonthsAgo = none → (scoreMomentum i).score = 5 / 2) ∧
    (∀ v : ℚ, i.price6MonthsAgo = some v → v ≤ 0 →
      (scoreMomentum i).score = 5 / 2) := by
  refine ⟨?_, ?_, ?_, ?_⟩
  · intro h
    constructor
    · cases hfc : i.freeCashFlow <;> simp [scoreFcfYield, hfc, h]
    · cases hbv : i.bookValue <;> simp [scoreBookToMarket, hbv, h]
  · intro h; simp [scorePriceRange, h]
  · intro h; simp [scoreMomentum, h]
  · intro v hv hle; simp [scoreMomentum, hv, hle]

/-- Concrete input exercising every guard of c9_division_guards at once
(except the some-branch of momentum, exercised by c9InputB). -/
def c9Input : ScoringInput :=
  { price := 10
    marketCap := -1
    high52w := 7
    low52w := 7
    freeCashFlow := some 5
    bookValue := some 5
    ebitdaGrowth := none
    assetGrowth := none
    ebitdaMargin := none
    roa := none
    price6MonthsAgo := none
    paysDividend := none
    dividendYield := none }

/-- Like c9Input but with a non-positive stored 6-months-ago price. -/
def c9InputB : ScoringInput :=
  { c9Input with price6MonthsAgo := some (-3) }

theorem c9_division_guards_witness :
    (scoreFcfYield c9Input).score = 0 ∧ (scoreBookToMarket c9Input).score = 0 ∧
    (scorePriceRange c9Input).score = 0 ∧ (scoreMomentum c9Input).score = 5 / 2 ∧
    (scoreMomentum c9InputB).score = 5 / 2 := by
  obtain ⟨a, b, c, -⟩ := c9_division_guards c9Input
  obtain ⟨-, -, -, d⟩ := c9_division_guards c9InputB
  refine ⟨(a ?_).1, (a ?_).2, b ?_, c rfl, d (-3) rfl (by norm_num)⟩ <;>
    norm_num [c9Input]

/-! ## Acquisition / screening controller
(src/backend/src/controllers/screen.controller.ts and the bulk screening path
quoted in src/backend/README.md) -/

/-- `GrowthMetrics` from fmp-api.service.ts. -/
structure GrowthMetrics where
  ebitdaGrowth : Option ℚ
  assetGrowth : Option ℚ
  source : String
deriving DecidableEq

/-- The gemini fallback merge in `ScreenController.screenTicker`:
`fmp.x ?? gemini.x` per growth field (nullish coalescing), source prefers
"fmp". -/
def mergeGrowthMetrics (fmp gemini : GrowthMetrics) : GrowthMetrics :=
  { ebitdaGrowth :=
      match fmp.ebitdaGrowth with
      | some v => some v
      | none => gemini.ebitdaGrowth
    assetGrowth :=
      match fmp.assetGrowth with
      | some v => some v
      | none => gemini.assetGrowth
    source := if fmp.source = "fmp" then "fmp" else gemini.source }

/-- Growth-metric pair returned by the EDGAR and Alpha Vantage providers. -/
structure GrowthPair where
  ebitdaGrowth : Option ℚ
  assetGrowth : Option ℚ
deriving DecidableEq

/-- Bulk path step 1 (README): fill price6MonthsAgo from Yahoo only when the
field is currently null and Yahoo returned one.  The source's outer
`if (missingHistoricalPrice)` guard repeats the same null test. -/
def stepYahooPrice (s : CachedStockData) (yahooPrice6m : Option ℚ) : CachedStockData :=
  if s.price6MonthsAgo = none ∧ yahooPrice6m ≠ none then
    { s with price6MonthsAgo := yahooPrice6m }
  else s

/-- Bulk path step 2 (README): fill each growth metric from EDGAR only where
currently null. -/
def stepEdgarGrowth (s : CachedStockData) (edgar : GrowthPair) : CachedStockData :=
  let s1 :=
    if s.ebitdaGrowth = none ∧ edgar.ebitdaGrowth ≠ none then
      { s with ebitdaGrowth := edgar.ebitdaGrowth }
    else s
  if s1.assetGrowth = none ∧ edgar.assetGrowth ≠ none then
    { s1 with assetGrowth := edgar.assetGrowth }
  else s1

/-- Bulk path step 3 (README): Alpha Vantage last resort, attempted only when
a growth metric is still missing, the service is available and the remaining
daily budget exceeds 5 calls; fills only null fields. -/
def stepAlphaVantageGrowth (s : CachedStockData) (av : GrowthPair)
    (avAvailable : Bool) (remainingCalls : ℤ) : CachedStockData :=
  if (s.ebitdaGrowth = none ∨ s.assetGrowth = none) ∧ avAvailable ∧ remainingCalls > 5 then
    let s1 :=
      if s.ebitdaGrowth = none ∧ av.ebitdaGrowth ≠ none then
        { s with ebitdaGrowth := av.ebitdaGrowth }
      else s
    if s1.assetGrowth = none ∧ av.assetGrowth ≠ none then
      { s1 with assetGrowth := av.assetGrowth }
    else s1
  else s

/-- Result of `fmpApiService.getDividendInfo` (internally recovered; never
throws). -/
structure DividendInfo where
  paysDividend : Bool
  dividendYield : Option ℚ
deriving DecidableEq

/-- FMP company profile fields used by the controller. -/
structure FmpProfile where
  companyName : String
  sector : String
  industry : String
  marketCap : ℚ
deriving DecidableEq

/-- FMP quote fields used by the controller. -/
structure FmpQuote where
  price : ℚ
  yearHigh : ℚ
  yearLow : ℚ
  pe : Option ℚ
deriving DecidableEq

/-- FMP key-metrics fields used by the controller. -/
structure FmpKeyMetrics where
  peRatio : Option ℚ
  pbRatio : Option ℚ
deriving DecidableEq

/-- FMP financial-ratio fields used by the controller. -/
structure FmpRatios where
  returnOnAssets : Option ℚ
  ebitdaMargin : Option ℚ
deriving DecidableEq

/-- FMP balance-sheet fields used by the controller. -/
structure FmpBalance where
  totalAssets : ℚ
  totalStockholdersEquity : ℚ
deriving DecidableEq

/-- FMP cash-flow-statement fields used by the controller. -/
structure FmpCashFlow where
  freeCashFlow : ℚ
deriving DecidableEq

/-- `StockData` from fmp-api.service.ts (statement lists sorted newest
first; `x[0]` is the latest period). -/
structure StockData where
  profile : FmpProfile
  quote : FmpQuote
  keyMetrics : List FmpKeyMetrics
  ratios : List FmpRatios
  balance : List FmpBalance
  cashFlow : List FmpCashFlow
deriving DecidableEq

/-- JS `x || y` for a nullable number x: absent or 0 falls through to y. -/
def jsOr (x y : Option ℚ) : Option ℚ :=
  match x with
  | some v => if v = 0 then y else some v
  | none => y

/-- Construction of the cached record in `ScreenController.screenTicker`
(lines 102-125): `a?.b || null` patterns become `jsOr _ none`, the ratio
percentages use the truthiness test `r ? r * 100 : null`. -/
def buildStockData (ticker : String) (fmpData : StockData)
    (price6MonthsAgo : Option ℚ) (dividendInfo : DividendInfo)
    (growthMetrics : GrowthMetrics) (now : ℤ) : CachedStockData :=
  let latestMetrics := fmpData.keyMetrics.head?
  let latestRatios := fmpData.ratios.head?
  let latestCashFlow := fmpData.cashFlow.head?
  let latestBalance := fmpData.balance.head?
  { ticker := ticker
    companyName := fmpData.profile.companyName
    sector := fmpData.profile.sector
    industry := fmpData.profile.industry
    marketCap := fmpData.profile.marketCap
    price := fmpData.quote.price
    high52w := fmpData.quote.yearHigh
    low52w := fmpData.quote.yearLow
    fcf := jsOr (latestCashFlow.map (·.freeCashFlow)) none
    bookValue := jsOr (latestBalance.map (·.totalStockholdersEquity)) none
    totalAssets := jsOr (latestBalance.map (·.totalAssets)) none
    ebitda := none
    ebitdaMargin :=
      match latestRatios with
      | some r =>
        match r.ebitdaMargin with
        | some m => if m = 0 then none else some (m * 100)
        | none => none
      | none => none
    roa :=
      match latestRatios with
      | some r =>
        match r.returnOnAssets with
        | some m => if m = 0 then none else some (m * 100)
        | none => none
      | none => none
    assetGrowth := growthMetrics.assetGrowth
    ebitdaGrowth := growthMetrics.ebitdaGrowth
    dividendYield := dividendInfo.dividendYield
    paysDividend := dividendInfo.paysDividend
    peRatio := jsOr (latestMetrics.bind (·.peRatio)) (jsOr fmpData.quote.pe none)
    pbRatio := jsOr (latestMetrics.bind (·.pbRatio)) none
    price6MonthsAgo := price6MonthsAgo
    dataFetchedAt := now }

/-- JS `x || undefined` on a nullable number: a stored 0 becomes undefined. -/
def orUndefined (o : Option ℚ) : Option ℚ :=
  match o with
  | none => none
  | some v => if v = 0 then none else some v

/-- The `ScoringInput` construction in `ScreenController.screenTicker`
(lines 131-146): every optional field passes through `|| undefined`. -/
def toScoringInput (s : CachedStockData) : ScoringInput :=
  { price := s.price
    marketCap := s.marketCap
    high52w := s.high52w
    low52w := s.low52w
    freeCashFlow := orUndefined s.fcf
    bookValue := orUndefined s.bookValue
    ebitdaGrowth := orUndefined s.ebitdaGrowth
    assetGrowth := orUndefined s.assetGrowth
    ebitdaMargin := orUndefined s.ebitdaMargin
    roa := orUndefined s.roa
    price6MonthsAgo := orUndefined s.price6MonthsAgo
    paysDividend := some s.paysDividend
    dividendYield := orUndefined s.dividendYield }

/-- `ScreenController.screenTicker` control flow.  Provider calls are
modelled by their already-delivered results: every provider except the
primary one catches its own errors and returns a null-filled value, so those
parameters are plain values; the primary `fmpApiService.getStockData` throws
on total failure, modelled as `Except`.  The returned pair is the record
cache after the call and the outcome. -/
def screenTicker (cache : String → Option CachedStockData) (now : ℤ)
    (ticker : String) (primary : Except String StockData)
    (price6MonthsAgo : Option ℚ) (dividendInfo : DividendInfo)
    (fmpGrowth : GrowthMetrics) (geminiAvailable : Bool)
    (geminiGrowth : GrowthMetrics) :
    (String → Option CachedStockData) × Except String YartsevaScores :=
  match getCachedStock cache now ticker with
  | some cached => (cache, Except.ok (calculateScores (toScoringInput cached)))
  | none =>
    match primary with
    | Except.error e => (cache, Except.error e)
    | Except.ok fmpData =>
      let growthMetrics :=
        if (fmpGrowth.ebitdaGrowth = none ∨ fmpGrowth.assetGrowth = none) ∧ geminiAvailable
        then mergeGrowthMetrics fmpGrowth geminiGrowth
        else fmpGrowth
      let stockData :=
        buildStockData ticker fmpData price6MonthsAgo dividendInfo growthMetrics now
      let cache2 := fun t => if t = ticker then some stockData else cache t
      (cache2, Except.ok (calculateScores (toScoringInput stockData)))

/-- C5: the merge of a later provider's result into a partially populated
record is fill-only: a field that is already non-null keeps its value through
the gemini fallback merge and through each bulk-path fill step (Yahoo, EDGAR,
Alpha Vantage). -/
theorem c5_fill_only_merge (a b : GrowthMetrics) (s : CachedStockData)
    (y : Option ℚ) (eg av : GrowthPair) (avail : Bool) (rem : ℤ) (v : ℚ) :
    (a.ebitdaGrowth = some v → (mergeGrowthMetrics a b).ebitdaGrowth = some v) ∧
    (a.assetGrowth = some v → (mergeGrowthMetrics a b).assetGrowth = some v) ∧
    (s.price6MonthsAgo = some v → (stepYahooPrice s y).price6MonthsAgo = some v) ∧
    (stepYahooPrice s y).ebitdaGrowth = s.ebitdaGrowth ∧
    (stepYahooPrice s y).assetGrowth = s.assetGrowth ∧
    (s.ebitdaGrowth = some v → (stepEdgarGrowth s eg).ebitdaGrowth = some v) ∧
    (s.assetGrowth = some v → (stepEdgarGrowth s eg).assetGrowth = some v) ∧
    (stepEdgarGrowth s eg).price6MonthsAgo = s.price6MonthsAgo ∧
    (s.ebitdaGrowth = some v →
      (stepAlphaVantageGrowth s av avail rem).ebitdaGrowth = some v) ∧
    (s.assetGrowth = some v →
      (stepAlphaVantageGrowth s av avail rem).assetGrowth = some v) := by
  refine ⟨?_, ?_, ?_, ?_, ?_, ?_, ?_, ?_, ?_, ?_⟩
  · intro h; simp [mergeGrowthMetrics, h]
  · intro h; simp [mergeGrowthMetrics, h]
  · intro h; simp [stepYahooPrice, h]
  · simp only [stepYahooPrice]; split_ifs <;> rfl
  · simp only [stepYahooPrice]; split_ifs <;> rfl
  · intro h
    simp only [stepEdgarGrowth, h]
    split_ifs <;> simp_all
  · intro h
    simp only [stepEdgarGrowth]
    split_ifs <;> simp_all
  · simp only [stepEdgarGrowth]
    split_ifs <;> rfl
  · intro h
    simp only [stepAlphaVantageGrowth]
    split_ifs <;> simp_all
  · intro h
    simp only [stepAlphaVantageGrowth]
    split_ifs <;> simp_all

/-- Concrete populated record for the C5 witness. -/
def c5Row : CachedStockData :=
  { c4Row with ebitdaGrowth := some 7, assetGrowth := some 7, price6MonthsAgo := some 7 }

theorem c5_fill_only_merge_witness :
    (mergeGrowthMetrics ⟨some 7, some 7, "fmp"⟩ ⟨some 9, some 9, "gemini"⟩).ebitdaGrowth = some 7 ∧
    (mergeGrowthMetrics ⟨some 7, some 7, "fmp"⟩ ⟨some 9, some 9, "gemini"⟩).assetGrowth = some 7 ∧
    (stepYahooPrice c5Row (some 9)).price6MonthsAgo = some 7 ∧
    (stepEdgarGrowth c5Row ⟨some 9, some 9⟩).ebitdaGrowth = some 7 ∧
    (stepEdgarGrowth c5Row ⟨some 9, some 9⟩).assetGrowth = some 7 ∧
    (stepAlphaVantageGrowth c5Row ⟨some 9, some 9⟩ true 10).ebitdaGrowth = some 7 ∧
    (stepAlphaVantageGrowth c5Row ⟨some 9, some 9⟩ true 10).assetGrowth = some 7 := by
  obtain ⟨m1, m2, m3, -, -, m6, m7, -, m9, m10⟩ :=
    c5_fill_only_merge ⟨some 7, some 7, "fmp"⟩ ⟨some 9, some 9, "gemini"⟩ c5Row
      (some 9) ⟨some 9, some 9⟩ ⟨some 9, some 9⟩ true 10 7
  exact ⟨m1 rfl, m2 rfl, m3 rfl, m6 rfl, m7 rfl, m9 rfl, m10 rfl⟩

/-- C7: the only fatal outcome of screening a ticker is total failure of the
mandatory primary fundamentals provider; on that path nothing is written to
the record cache, and with any successful primary result the screening
succeeds whatever the (already locally recovered) fallback providers
returned. -/
theorem c7_primary_failure_only_fatal (cache : String → Option CachedStockData)
    (now : ℤ) (ticker msg : String) (p6 : Option ℚ) (dInfo : DividendInfo)
    (fg gg : GrowthMetrics) (avail : Bool) :
    (getCachedStock cache now ticker = none →
      screenTicker cache now ticker (Except.error msg) p6 dInfo fg avail gg =
        (cache, Except.error msg)) ∧
    (∀ (p : Except String StockData) (e : String),
      (screenTicker cache now ticker p p6 dInfo fg avail gg).2 = Except.error e →
        p = Except.error e ∧ getCachedStock cache now ticker = none ∧
        (screenTicker cache now ticker p p6 dInfo fg avail gg).1 = cache) ∧
    (getCachedStock cache now ticker = none → ∀ sd : StockData,
      ∃ ys, (screenTicker cache now ticker (Except.ok sd) p6 dInfo fg avail gg).2 =
        Except.ok ys) := by
  refine ⟨?_, ?_, ?_⟩
  · intro hmiss
    simp [screenTicker, hmiss]
  · intro p e
    cases hc : getCachedStock cache now ticker with
    | some cached => simp [screenTicker, hc]
    | none =>
      cases p with
      | error e2 => simp [screenTicker, hc]
      | ok sd => simp [screenTicker, hc]
  · intro hmiss sd
    simp [screenTicker, hmiss]

/-- Concrete primary-provider payload for the C7 witness. -/
def c7StockData : StockData :=
  { profile := ⟨"Test Co", "Tech", "Software", 100000000⟩
    quote := ⟨10, 20, 5, none⟩
    keyMetrics := []
    ratios := []
    balance := []
    cashFlow := [] }

theorem c7_primary_failure_only_fatal_witness :
    screenTicker (fun _ => none) 0 "TEST" (Except.error "boom") none
        ⟨false, none⟩ ⟨none, none, "unavailable"⟩ false ⟨none, none, "unavailable"⟩ =
      ((fun _ => none), Except.error "boom") ∧
    (screenTicker (fun _ => none) 0 "TEST" (Except.error "boom") none
        ⟨false, none⟩ ⟨none, none, "unavailable"⟩ false ⟨none, none, "unavailable"⟩).1 =
      (fun _ => none) ∧
    (∃ ys, (screenTicker (fun _ => none) 0 "TEST" (Except.ok c7StockData) none
        ⟨false, none⟩ ⟨none, none, "unavailable"⟩ false ⟨none, none, "unavailable"⟩).2 =
      Except.ok ys) := by
  obtain ⟨a, b, c⟩ := c7_primary_failure_only_fatal (fun _ => none) 0 "TEST" "boom"
    none ⟨false, none⟩ ⟨none, none, "unavailable"⟩ ⟨none, none, "unavailable"⟩ false
  exact ⟨a rfl, (b (Except.error "boom") "boom" rfl).2.2, c rfl c7StockData⟩

/-- C10: at the scoring interface a stored 0 in a nullable numeric field is
indistinguishable from null: `|| undefined` converts it to missing, the
corresponding factor takes its data-not-available branch, and the record
scores identically to the same record with that field null. -/
theorem c10_zero_indistinguishable_from_null (s : CachedStockData) :
    (s.fcf = some 0 →
      toScoringInput s = toScoringInput { s with fcf := none } ∧
      (toScoringInput s).freeCashFlow = none ∧
      (scoreFcfYield (toScoringInput s)).score = 0 ∧
      (scoreFcfYield (toScoringInput s)).value = "N/A" ∧
      calculateScores (toScoringInput s) =
        calculateScores (toScoringInput { s with fcf := none })) ∧
    (s.bookValue = some 0 →
      toScoringInput s = toScoringInput { s with bookValue := none } ∧
      (toScoringInput s).bookValue = none ∧
      (scoreBookToMarket (toScoringInput s)).score = 0 ∧
      (scoreBookToMarket (toScoringInput s)).value = "N/A" ∧
      calculateScores (toScoringInput s) =
        calculateScores (toScoringInput { s with bookValue := none })) ∧
    (s.ebitdaGrowth = some 0 →
      toScoringInput s = toScoringInput { s with ebitdaGrowth := none } ∧
      (toScoringInput s).ebitdaGrowth = none ∧
      (scoreInvestmentPattern (toScoringInput s)).score = 0 ∧
      (scoreInvestmentPattern (toScoringInput s)).value = "N/A" ∧
      calculateScores (toScoringInput s) =
        calculateScores (toScoringInput { s with ebitdaGrowth := none })) ∧
    (s.assetGrowth = some 0 →
      toScoringInput s = toScoringInput { s with assetGrowth := none } ∧
      (toScoringInput s).assetGrowth = none ∧
      (scoreInvestmentPattern (toScoringInput s)).score = 0 ∧
      (scoreInvestmentPattern (toScoringInput s)).value = "N/A" ∧
      calculateScores (toScoringInput s) =
        calculateScores (toScoringInput { s with assetGrowth := none })) ∧
    (s.ebitdaMargin = some 0 →
      toScoringInput s = toScoringInput { s with ebitdaMargin := none } ∧
      (toScoringInput s).ebitdaMargin = none ∧
      (scoreEbitdaMargin (toScoringInput s)).score = 0 ∧
      (scoreEbitdaMargin (toScoringInput s)).value = "N/A" ∧
      calculateScores (toScoringInput s) =
        calculateScores (toScoringInput { s with ebitdaMargin := none })) ∧
    (s.roa = some 0 →
      toScoringInput s = toScoringInput { s with roa := none } ∧
      (toScoringInput s).roa = none ∧
      (scoreRoa (toScoringInput s)).score = 0 ∧
      (scoreRoa (toScoringInput s)).value = "N/A" ∧
      calculateScores (toScoringInput s) =
        calculateScores (toScoringInput { s with roa := none })) ∧
    (s.price6MonthsAgo = some 0 →
      toScoringInput s = toScoringInput { s with price6MonthsAgo := none } ∧
      (toScoringInput s).price6MonthsAgo = none ∧
      (scoreMomentum (toScoringInput s)).score = 5 / 2 ∧
      (scoreMomentum (toScoringInput s)).value = "Est." ∧
      calculateScores (toScoringInput s) =
        calculateScores (toScoringInput { s with price6MonthsAgo := none })) := by
  refine ⟨?_, ?_, ?_, ?_, ?_, ?_, ?_⟩
  · intro h
    have he : toScoringInput s = toScoringInput { s with fcf := none } := by
      simp [toScoringInput, orUndefined, h]
    have hn : (toScoringInput s).freeCashFlow = none := by
      simp [toScoringInput, orUndefined, h]
    exact ⟨he, hn, by simp [scoreFcfYield, hn], by simp [scoreFcfYield, hn],
      congrArg calculateScores he⟩
  · intro h
    have he : toScoringInput s = toScoringInput { s with bookValue := none } := by
      simp [toScoringInput, orUndefined, h]
    have hn : (toScoringInput s).bookValue = none := by
      simp [toScoringInput, orUndefined, h]
    exact ⟨he, hn, by simp [scoreBookToMarket, hn], by simp [scoreBookToMarket, hn],
      congrArg calculateScores he⟩
  · intro h
    have he : toScoringInput s = toScoringInput { s with ebitdaGrowth := none } := by
      simp [toScoringInput, orUndefined, h]
    have hn : (toScoringInput s).ebitdaGrowth = none := by
      simp [toScoringInput, orUndefined, h]
    refine ⟨he, hn, ?_, ?_, congrArg calculateScores he⟩ <;>
      cases hag : (toScoringInput s).assetGrowth <;>
        simp [scoreInvestmentPattern, hn, hag]
  · intro h
    have he : toScoringInput s = toScoringInput { s with assetGrowth := none } := by
      simp [toScoringInput, orUndefined, h]
    have hn : (toScoringInput s).assetGrowth = none := by
      simp [toScoringInput, orUndefined, h]
    refine ⟨he, hn, ?_, ?_, congrArg calculateScores he⟩ <;>
      cases heg : (toScoringInput s).ebitdaGrowth <;>
        simp [scoreInvestmentPattern, hn, heg]
  · intro h
    have he : toScoringInput s = toScoringInput { s with ebitdaMargin := none } := by
      simp [toScoringInput, orUndefined, h]
    have hn : (toScoringInput s).ebitdaMargin = none := by
      simp [toScoringInput, orUndefined, h]
    exact ⟨he, hn, by simp [scoreEbitdaMargin, hn], by simp [scoreEbitdaMargin, hn],
      congrArg calculateScores he⟩
  · intro h
    have he : toScoringInput s = toScoringInput { s with roa := none } := by
      simp [toScoringInput, orUndefined, h]
    have hn : (toScoringInput s).roa = none := by
      simp [toScoringInput, orUndefined, h]
    exact ⟨he, hn, by simp [scoreRoa, hn], by simp [scoreRoa, hn],
      congrArg calculateScores he⟩
  · intro h
    have he : toScoringInput s = toScoringInput { s with price6MonthsAgo := none } := by
      simp [toScoringInput, orUndefined, h]
    have hn : (toScoringInput s).price6MonthsAgo = none := by
      simp [toScoringInput, orUndefined, h]
    exact ⟨he, hn, by simp [scoreMomentum, hn], by simp [scoreMomentum, hn],
      congrArg calculateScores he⟩

/-- Concrete record with every nullable numeric field stored as 0, for the
C10 witness. -/
def c10Row : CachedStockData :=
  { c4Row with
    fcf := some 0
    bookValue := some 0
    ebitdaGrowth := some 0
    assetGrowth := some 0
    ebitdaMargin := some 0
    roa := some 0
    price6MonthsAgo := some 0 }

theorem c10_zero_indistinguishable_from_null_witness :
    toScoringInput c10Row = toScoringInput { c10Row with fcf := none } ∧
    (scoreFcfYield (toScoringInput c10Row)).score = 0 ∧
    (scoreFcfYield (toScoringInput c10Row)).value = "N/A" ∧
    (scoreBookToMarket (toScoringInput c10Row)).score = 0 ∧
    (scoreInvestmentPattern (toScoringInput c10Row)).score = 0 ∧
    (scoreEbitdaMargin (toScoringInput c10Row)).score = 0 ∧
    (scoreRoa (toScoringInput c10Row)).score = 0 ∧
    (scoreMomentum (toScoringInput c10Row)).score = 5 / 2 ∧
    calculateScores (toScoringInput c10Row) =
      calculateScores (toScoringInput { c10Row with price6MonthsAgo := none }) := by
  obtain ⟨a, b, c, d, e, f, g⟩ := c10_zero_indistinguishable_from_null c10Row
  exact ⟨(a rfl).1, (a rfl).2.2.1, (a rfl).2.2.2.1, (b rfl).2.2.1, (c rfl).2.2.1,
    (e rfl).2.2.1, (f rfl).2.2.1, (g rfl).2.2.1, (g rfl).2.2.2.2⟩

/-! ## Historical price lookup (src/backend/src/services/fmp-api.service.ts) -/

/-- One point of the FMP daily price series; dates are integer day numbers.
The API delivers the series sorted newest first. -/
structure PricePoint where
  date : ℤ
  close : ℚ
deriving DecidableEq

namespace FMPApi

/-- `FMPApiService.getHistoricalPrice` core logic: empty series gives null;
otherwise the first entry (series is newest-first) whose date does not exceed
`now - daysAgo`; otherwise the oldest entry's close, where the JS `|| null`
coerces a close of 0 to null. -/
def getHistoricalPrice (historical : List PricePoint) (now daysAgo : ℤ) : Option ℚ :=
  if historical = [] then none
  else
    let targetDate := now - daysAgo
    match historical.find? (fun e => decide (e.date ≤ targetDate)) with
    | some e => some e.close
    | none =>
      match historical.getLast? with
      | some last => if last.close = 0 then none else some last.close
      | none => none

end FMPApi

/-- On a list sorted by date descending, `find?` with the predicate
`date ≤ target` returns a member at or before the target whose date is
maximal among such members. -/
theorem find_first_le_is_max (target : ℤ) (l : List PricePoint)
    (hsorted : l.Pairwise (fun a b => b.date ≤ a.date)) (m : PricePoint)
    (h : l.find? (fun e => decide (e.date ≤ target)) = some m) :
    m ∈ l ∧ m.date ≤ target ∧ ∀ e2 ∈ l, e2.date ≤ target → e2.date ≤ m.date := by
  induction l with
  | nil => simp at h
  | cons a t ih =>
    rcases List.pairwise_cons.mp hsorted with ⟨hhead, htail⟩
    by_cases ha : a.date ≤ target
    · rw [List.find?_cons_of_pos _ (by simpa using ha)] at h
      obtain rfl : a = m := by simpa using h
      refine ⟨List.mem_cons_self a t, ha, ?_⟩
      intro e2 he2 _
      rcases List.mem_cons.mp he2 with rfl | he2
      · exact le_refl _
      · exact hhead e2 he2
    · rw [List.find?_cons_of_neg _ (by simpa using ha)] at h
      obtain ⟨hm, hle, hmax⟩ := ih htail h
      refine ⟨List.mem_cons_of_mem a hm, hle, ?_⟩
      intro e2 he2 hle2
      rcases List.mem_cons.mp he2 with rfl | he2
      · exact absurd hle2 ha
      · exact hmax e2 he2 hle2

namespace Yahoo

/-- `YahooHistoricalPrice` from the yahoo-finance service; dates are integer
day numbers. -/
structure YahooHistoricalPrice where
  date : ℤ
  close : ℚ
deriving DecidableEq

/-- One step of the `getPrice6MonthsAgo` scan: the candidate replaces the
accumulator exactly when its absolute distance to the target is strictly
smaller; the initial `closestDiff = Infinity` accumulator always loses. -/
def closerThan (target : ℤ) (p : YahooHistoricalPrice)
    (best : Option YahooHistoricalPrice) : Bool :=
  match best with
  | none => true
  | some b => decide (|p.date - target| < |b.date - target|)

/-- `YahooFinanceService.getPrice6MonthsAgo` core: null on an empty series,
else scan the whole series for the point minimizing |date - target| with
target = 180 days before now (the first minimum wins; a point dated after the
target can win), returning its close, with the trailing `|| null` coercing a
close of 0 to null. -/
def getPrice6MonthsAgo (prices : List YahooHistoricalPrice) (now : ℤ) : Option ℚ :=
  if prices = [] then none
  else
    let targetDate := now - 180
    match prices.foldl
        (fun best p => if closerThan targetDate p best then some p else best) none with
    | some cp => if cp.close = 0 then none else some cp.close
    | none => none

end Yahoo

/-- The Yahoo scan never loses a some accumulator. -/
theorem yahooFold_some (t : ℤ) (l : List Yahoo.YahooHistoricalPrice)
    (b : Yahoo.YahooHistoricalPrice) :
    ∃ m, l.foldl
      (fun best p => if Yahoo.closerThan t p best then some p else best)
      (some b) = some m := by
  induction l generalizing b with
  | nil => exact ⟨b, rfl⟩
  | cons a tl ih =>
    rw [List.foldl_cons]
    by_cases hc : Yahoo.closerThan t a (some b) = true
    · rw [if_pos hc]; exact ih a
    · rw [if_neg hc]; exact ih b

/-- The Yahoo scan returns the accumulator or a member of the series. -/
theorem yahooFold_mem (t : ℤ) (l : List Yahoo.YahooHistoricalPrice) :
    ∀ (best : Option Yahoo.YahooHistoricalPrice) (m : Yahoo.YahooHistoricalPrice),
      l.foldl (fun best p => if Yahoo.closerThan t p best then some p else best)
        best = some m →
      best = some m ∨ m ∈ l := by
  induction l with
  | nil =>
    intro best m h
    simp only [List.foldl_nil] at h
    exact Or.inl h
  | cons a tl ih =>
    intro best m h
    rw [List.foldl_cons] at h
    rcases ih _ m h with h2 | h2
    · by_cases hc : Yahoo.closerThan t a best = true
      · rw [if_pos hc] at h2
        obtain rfl := Option.some_inj.mp h2
        exact Or.inr (List.mem_cons_self a tl)
      · rw [if_neg hc] at h2
        exact Or.inl h2
    · exact Or.inr (List.mem_cons_of_mem a h2)

/-- The Yahoo scan's result minimizes |date - target| over the accumulator
and every member of the series. -/
theorem yahooFold_min (t : ℤ) (l : List Yahoo.YahooHistoricalPrice) :
    ∀ (best : Option Yahoo.YahooHistoricalPrice) (m : Yahoo.YahooHistoricalPrice),
      l.foldl (fun best p => if Yahoo.closerThan t p best then some p else best)
        best = some m →
      (∀ b, best = some b → |m.date - t| ≤ |b.date - t|) ∧
      (∀ p ∈ l, |m.date - t| ≤ |p.date - t|) := by
  induction l with
  | nil =>
    intro best m h
    simp only [List.foldl_nil] at h
    subst h
    exact ⟨fun b hb => le_of_eq (by rw [Option.some_inj.mp hb]), by simp⟩
  | cons a tl ih =>
    intro best m h
    rw [List.foldl_cons] at h
    by_cases hc : Yahoo.closerThan t a best = true
    · rw [if_pos hc] at h
      obtain ⟨ihb, ihl⟩ := ih (some a) m h
      have hma : |m.date - t| ≤ |a.date - t| := ihb a rfl
      refine ⟨?_, ?_⟩
      · intro b hb
        subst hb
        have hab : |a.date - t| < |b.date - t| := by
          simpa [Yahoo.closerThan] using hc
        exact le_trans hma (le_of_lt hab)
      · intro p hp
        rcases List.mem_cons.mp hp with rfl | hp
        · exact hma
        · exact ihl p hp
    · rw [if_neg hc] at h
      obtain ⟨ihb, ihl⟩ := ih best m h
      refine ⟨ihb, ?_⟩
      intro p hp
      rcases List.mem_cons.mp hp with rfl | hp
      · cases hbest : best with
        | none => rw [hbest] at hc; exact absurd (by simp [Yahoo.closerThan]) hc
        | some b =>
          have h1 : |m.date - t| ≤ |b.date - t| := ihb b hbest
          have h2 : ¬ (|p.date - t| < |b.date - t|) := by
            rw [hbest] at hc
            simpa [Yahoo.closerThan] using hc
          exact le_trans h1 (not_lt.mp h2)
      · exact ihl p hp

/-- C8 counterexample, one divergence per clause of the claim.
(i) The cited Yahoo lookup minimizes the absolute distance to the target, so
on a series with points at target+5 and target-120 it returns the point dated
after the target - the claim's "closest without exceeding" point (date 700,
close 6) is not returned.
(ii) The FMP fallback coerces a 0 close to null instead of returning the
oldest available point.
(iii) On a series not sorted newest first the FMP lookup returns the first
entry at or before the target (date 800), not the closest one (date 810). -/
theorem c8_counterexample_lookup_divergences :
    Yahoo.getPrice6MonthsAgo [⟨825, 7⟩, ⟨700, 6⟩] 1000 = some 7 ∧
    ¬ ((825 : ℤ) ≤ 1000 - 180) ∧ (700 : ℤ) ≤ 1000 - 180 ∧
    ¬ Yahoo.getPrice6MonthsAgo [⟨825, 7⟩, ⟨700, 6⟩] 1000 = some 6 ∧
    FMPApi.getHistoricalPrice [⟨900, 0⟩] 1000 180 = none ∧
    (⟨900, (0 : ℚ)⟩ : PricePoint).close = 0 ∧ ¬ ((900 : ℤ) ≤ 1000 - 180) ∧
    FMPApi.getHistoricalPrice [⟨800, 6⟩, ⟨810, 7⟩] 1000 180 = some 6 ∧
    (800 : ℤ) < 810 ∧ (810 : ℤ) ≤ 1000 - 180 := by
  refine ⟨by decide, by norm_num, by norm_num, by decide, by decide, rfl,
    by norm_num, by decide, by norm_num, by norm_num⟩

/-- C8 (amended): the FMP lookup, on a non-empty daily series sorted newest
first as the API delivers it, returns the close of the point whose date is
closest to `now - daysAgo` without exceeding it; when no such point exists it
falls back to the oldest point's close unless that close is 0, in which case
it returns null; the empty series returns null.  The cited Yahoo variant
instead returns the close of a point minimizing the absolute distance to the
target - a point dated after the target may win - with null for an empty
series or a selected close of 0. -/
theorem c8_amended_historical_price_lookup (hist : List PricePoint)
    (prices : List Yahoo.YahooHistoricalPrice) (now daysAgo : ℤ)
    (hsorted : hist.Pairwise (fun a b => b.date ≤ a.date)) :
    (hist = [] → FMPApi.getHistoricalPrice hist now daysAgo = none) ∧
    (∀ e ∈ hist, e.date ≤ now - daysAgo →
      ∃ m ∈ hist, m.date ≤ now - daysAgo ∧
        FMPApi.getHistoricalPrice hist now daysAgo = some m.close ∧
        ∀ e2 ∈ hist, e2.date ≤ now - daysAgo → e2.date ≤ m.date) ∧
    ((∀ e ∈ hist, now - daysAgo < e.date) → ∀ last ∈ hist.getLast?,
      FMPApi.getHistoricalPrice hist now daysAgo =
        if last.close = 0 then none else some last.close) ∧
    (prices = [] → Yahoo.getPrice6MonthsAgo prices now = none) ∧
    (prices ≠ [] → ∃ m ∈ prices,
      (∀ p ∈ prices, |m.date - (now - 180)| ≤ |p.date - (now - 180)|) ∧
      Yahoo.getPrice6MonthsAgo prices now =
        (if m.close = 0 then none else some m.close)) := by
  refine ⟨?_, ?_, ?_, ?_, ?_⟩
  · intro h
    simp [FMPApi.getHistoricalPrice, h]
  · intro e he hle
    have hne : hist ≠ [] := by rintro rfl; simp at he
    cases hf : hist.find? (fun e => decide (e.date ≤ now - daysAgo)) with
    | none =>
      rw [List.find?_eq_none] at hf
      exact absurd (by simpa using hle) (by simpa using hf e he)
    | some m =>
      obtain ⟨hm, hmle, hmax⟩ := find_first_le_is_max (now - daysAgo) hist hsorted m hf
      exact ⟨m, hm, hmle, by simp [FMPApi.getHistoricalPrice, hne, hf], hmax⟩
  · intro hall last hlast
    have hne : hist ≠ [] := by rintro rfl; simp at hlast
    have hf : hist.find? (fun e => decide (e.date ≤ now - daysAgo)) = none := by
      rw [List.find?_eq_none]
      intro x hx
      simpa using not_le.mpr (hall x hx)
    simp only [Option.mem_def] at hlast
    simp [FMPApi.getHistoricalPrice, hne, hf, hlast]
  · intro h
    simp [Yahoo.getPrice6MonthsAgo, h]
  · intro hne
    cases hp : prices with
    | nil => exact absurd hp hne
    | cons a tl =>
      obtain ⟨m, hm⟩ := yahooFold_some (now - 180) tl a
      have hfold : (a :: tl).foldl
          (fun best p => if Yahoo.closerThan (now - 180) p best then some p else best)
          none = some m := by
        rw [List.foldl_cons]
        simpa [Yahoo.closerThan] using hm
      have hmem : m ∈ a :: tl := by
        rcases yahooFold_mem (now - 180) tl (some a) m hm with h2 | h2
        · rw [← Option.some_inj.mp h2]
          exact List.mem_cons_self a tl
        · exact List.mem_cons_of_mem a h2
      obtain ⟨ihb, ihl⟩ := yahooFold_min (now - 180) tl (some a) m hm
      subst hp
      refine ⟨m, hmem, ?_, ?_⟩
      · intro p hp2
        rcases List.mem_cons.mp hp2 with rfl | hp2
        · exact ihb p rfl
        · exact ihl p hp2
      · simp [Yahoo.getPrice6MonthsAgo, hfold]

theorem c8_amended_historical_price_lookup_witness :
    (∃ m ∈ ([⟨1000, 10⟩, ⟨900, 8⟩, ⟨800, 6⟩] : List PricePoint),
      m.date ≤ 1000 - 180 ∧
      FMPApi.getHistoricalPrice [⟨1000, 10⟩, ⟨900, 8⟩, ⟨800, 6⟩] 1000 180 = some m.close ∧
      ∀ e2 ∈ ([⟨1000, 10⟩, ⟨900, 8⟩, ⟨800, 6⟩] : List PricePoint),
        e2.date ≤ 1000 - 180 → e2.date ≤ m.date) ∧
    FMPApi.getHistoricalPrice [⟨1000, 10⟩, ⟨900, 8⟩] 1000 180 =
      (if ((8 : ℚ)) = 0 then none else some 8) ∧
    (∃ m ∈ ([⟨825, 7⟩, ⟨700, 6⟩] : List Yahoo.YahooHistoricalPrice),
      (∀ p ∈ ([⟨825, 7⟩, ⟨700, 6⟩] : List Yahoo.YahooHistoricalPrice),
        |m.date - (1000 - 180)| ≤ |p.date - (1000 - 180)|) ∧
      Yahoo.getPrice6MonthsAgo [⟨825, 7⟩, ⟨700, 6⟩] 1000 =
        (if m.close = 0 then none else some m.close)) := by
  refine ⟨?_, ?_, ?_⟩
  · obtain ⟨-, b, -, -, -⟩ := c8_amended_historical_price_lookup
      [⟨1000, 10⟩, ⟨900, 8⟩, ⟨800, 6⟩] [] 1000 180 (by norm_num)
    exact b ⟨800, 6⟩ (by simp) (by norm_num)
  · obtain ⟨-, -, c, -, -⟩ := c8_amended_historical_price_lookup
      [⟨1000, 10⟩, ⟨900, 8⟩] [] 1000 180 (by norm_num)
    exact c (by norm_num) ⟨900, 8⟩ (by simp)
  · obtain ⟨-, -, -, -, e⟩ := c8_amended_historical_price_lookup
      [] [⟨825, 7⟩, ⟨700, 6⟩] 1000 180 (by norm_num)
    exact e (by simp)

/-! ## CAGR computations
(src/backend/src/services/gemini.service.ts, FMPApiService.calculateCAGR, and
src/backend/src/services/edgar.service.ts, EdgarService.calculateCAGR)

JS `Math.pow` is modelled by real exponentiation `rpow`.  `Math.pow` of a
negative base with a fractional exponent is NaN in JS while `rpow` is a real
number, so every theorem below exercises only branches whose base is
nonnegative or branches that never reach the exponentiation. -/

namespace FMPApi

/-- `FMPApiService.calculateCAGR` (value-based variant).  The leading guard
`!startValue || !endValue || startValue <= 0 || years <= 0` precedes the
negative-endpoint branches, so any `startValue < 0` already returns null
before the branch written for "both negative (improving losses)" runs. -/
noncomputable def calculateCAGR (startValue endValue years : ℚ) : Option ℝ :=
  if startValue = 0 ∨ endValue = 0 ∨ startValue ≤ 0 ∨ years ≤ 0 then none
  else if startValue < 0 ∧ endValue > 0 then none
  else if startValue < 0 ∧ endValue < 0 then
    let ratio := endValue / startValue
    if ratio > 1 then none
    else some ((((1 : ℝ) / (ratio : ℝ)) ^ ((1 : ℝ) / (years : ℝ)) - 1) * 100)
  else some ((((endValue : ℝ) / (startValue : ℝ)) ^ ((1 : ℝ) / (years : ℝ)) - 1) * 100)

end FMPApi

/-- One fiscal-year value of an EDGAR financial time series. -/
structure YearValue where
  year : ℤ
  value : ℚ
deriving DecidableEq

namespace Edgar

/-- `EdgarService.calculateCAGR` (history-based variant): sort a copy newest
first (the JS stable sort with comparator `b.year - a.year`, modelled by the
stable insertionSort on the matching order), take the most recent point, find
the first point whose year lies `years` to `years + 1` back, require both
endpoint values strictly positive and an actual span of at least 2 years. -/
noncomputable def calculateCAGR (history : List YearValue) (years : ℤ) : Option ℝ :=
  if history.length < 2 then none
  else
    let sorted := history.insertionSort (fun a b => b.year ≤ a.year)
    match sorted.head? with
    | none => none
    | some recent =>
      match sorted.find? (fun h => decide (h.year ≤ recent.year - years) &&
          decide (h.year ≥ recent.year - years - 1)) with
      | none => none
      | some older =>
        if older.value ≤ 0 ∨ recent.value ≤ 0 then none
        else
          let actualYears := recent.year - older.year
          if actualYears < 2 then none
          else some ((((recent.value : ℝ) / (older.value : ℝ)) ^
            ((1 : ℝ) / ((actualYears : ℤ) : ℝ)) - 1) * 100)

end Edgar

/-- C3: the spec says a both-negative narrowing loss yields the
reciprocal-ratio improvement rate, but both CAGR implementations return null
on such histories: the value-based variant's leading guard rejects every
non-positive start value, leaving its written improvement-rate branch
unreachable, and the history-based variant rejects non-positive endpoints
outright.  The positive case matches the spec: 100 in 2021 to 172.8 in 2024
gives exactly 20%. -/
theorem c3_cagr_dead_improvement_branch :
    FMPApi.calculateCAGR (-100) (-50) 3 = none ∧
    Edgar.calculateCAGR [⟨2024, -50⟩, ⟨2021, -100⟩] 3 = none ∧
    FMPApi.calculateCAGR 100 (1728 / 10) 3 = some 20 ∧
    Edgar.calculateCAGR [⟨2024, 1728 / 10⟩, ⟨2021, 100⟩] 3 = some 20 := by
  have hpow : (((1728 / 10 : ℚ) : ℝ) / ((100 : ℚ) : ℝ)) ^ ((3 : ℕ) : ℝ)⁻¹ = 6 / 5 := by
    have h1 : ((1728 / 10 : ℚ) : ℝ) / ((100 : ℚ) : ℝ) = (6 / 5 : ℝ) ^ (3 : ℕ) := by
      norm_num
    rw [h1, Real.pow_rpow_inv_natCast (by norm_num) (by norm_num)]
  refine ⟨?_, ?_, ?_, ?_⟩
  · simp only [FMPApi.calculateCAGR]
    rw [if_pos]
    norm_num
  · norm_num [Edgar.calculateCAGR, List.insertionSort, List.orderedInsert, List.find?]
  · simp only [FMPApi.calculateCAGR]
    rw [if_neg (by norm_num), if_neg (by norm_num), if_neg (by norm_num)]
    have h2 : (1 : ℝ) / ((3 : ℚ) : ℝ) = ((3 : ℕ) : ℝ)⁻¹ := by norm_num
    rw [h2, hpow]
    norm_num
  · norm_num [Edgar.calculateCAGR, List.insertionSort, List.orderedInsert, List.find?]
    have h1 : (216 / 125 : ℝ) = (6 / 5 : ℝ) ^ (3 : ℕ) := by norm_num
    have h2 : (1 / 3 : ℝ) = ((3 : ℕ) : ℝ)⁻¹ := by norm_num
    rw [h1, h2, Real.pow_rpow_inv_natCast (by norm_num) (by norm_num)]
    norm_num

end Multibagger
